import Mathlib

/-
Verification of the matchup-resolution and unit-filtering logic of the
wbc-game-assistant repository (src/wbc_game_assistant/units.py), as a shallow
embedding: a pandas dataframe of units becomes a list of records, the pandas
series for the selected player unit becomes a single record, the module-level
ability dictionary becomes an explicit association list parameter, and Python
exceptions become an explicit error type threaded through Except.
-/

namespace WBC

/-- Boolean test that the second character list is a contiguous prefix of
the first. -/
def charsStartWith : List Char → List Char → Bool
  | _, [] => true
  | [], _ :: _ => false
  | a :: as, b :: bs => a == b && charsStartWith as bs

/-- Boolean test that the pattern occurs contiguously somewhere in the list,
the semantics of the Python substring operator on strings. -/
def charsContain (l pat : List Char) : Bool :=
  match l with
  | [] => pat.isEmpty
  | _ :: tl => charsStartWith l pat || charsContain tl pat

/-- Substring containment for strings: models both the Python `in` operator
on strings and `Series.str.contains` for the plain alphabetic patterns used
by this program (no regex metacharacters occur in damage-type names). -/
def strContainsSub (s pat : String) : Bool := charsContain s.data pat.data

/-- ASCII lowering of one character, the effect of Python `str.lower` on the
ASCII ability texts of this program. -/
def lowerChar (c : Char) : Char :=
  if 65 ≤ c.toNat ∧ c.toNat ≤ 90 then Char.ofNat (c.toNat + 32) else c

/-- ASCII lowering of a string. -/
def strLower (s : String) : String := String.mk (s.data.map lowerChar)

/-- Case-insensitive test that a text contains the word flying, the check
performed by units.py on ability texts. -/
def hasFlying (s : String) : Bool := strContainsSub (strLower s) "flying"

/-- One row of the unit dataframe. The flying field models the optional
flying column: none when the column is absent for that row, some b once
check_attack_types has written it. -/
structure UnitRecord where
  id : String
  unit_name : String
  damageType : String
  attackType : String
  resilience : List String
  vulnerability : List String
  flying : Option Bool
deriving DecidableEq

/-- Python exceptions reachable from the embedded functions: ValueError with
its message (the InvalidArgument failure of the spec), KeyError from a missing
dictionary key, and UnboundLocalError from the return of an unassigned local. -/
inductive PyErr where
  | valueError : String → PyErr
  | keyError : PyErr
  | unboundLocal : PyErr
deriving DecidableEq

/-- The mappings.unit_images_and_abilities dictionary: unit id to a pair of
image filename and optional ability text (None in Python becomes none). -/
abbrev AbilityDict := List (String × String × Option String)

/-- The reduced dictionary built at the top of check_attack_types, keeping
only the ability text of each entry. -/
def abilitiesOnly (abilities_dict : AbilityDict) : List (String × Option String) :=
  abilities_dict.map (fun kv => (kv.1, kv.2.2))

/-- Flier status of the player unit as computed by check_attack_types from
its own ability text: a missing (None) text counts as not flying. -/
def player_unit_flying (ability : Option String) : Bool :=
  match ability with
  | none => false
  | some s => hasFlying s

/-- Flier status written into the flying column for an enemy row. A missing
dictionary key or a None ability text maps to NaN, which np.where treats as
truthy, so both cases yield true; a present text is tested for the word
flying case-insensitively. -/
def enemy_flying (abilities : List (String × Option String)) (id : String) : Bool :=
  match abilities.lookup id with
  | some (some s) => hasFlying s
  | _ => true

/-- Embedding of check_attack_types from units.py. The first component of a
successful result is the enemy dataframe as the caller sees it after the call
(the function writes the flying column in place); the second is the filtered
dataframe that is returned. -/
def check_attack_types (player_unit : UnitRecord) (enemy_df : List UnitRecord)
    (abilities_dict : AbilityDict) (check_context : String) :
    Except PyErr (List UnitRecord × List UnitRecord) :=
  if ¬(check_context = "strengths" ∨ check_context = "weaknesses") then
    .error (.valueError
      "Unknown context, check can be performed only for strenghts or weaknesses")
  else
    let abilities := abilitiesOnly abilities_dict
    match abilities.lookup player_unit.id with
    | none => .error .keyError
    | some ability =>
      let pf := player_unit_flying ability
      let mutated := enemy_df.map
        (fun r => { r with flying := some (enemy_flying abilities r.id) })
      if check_context = "strengths" then
        if player_unit.attackType = "ground" then
          .ok (mutated, mutated.filter (fun r => r.flying == some false))
        else if player_unit.attackType = "air" then
          .ok (mutated, mutated.filter (fun r => r.flying == some true))
        else if player_unit.attackType = "both" then
          .ok (mutated, mutated)
        else
          .error .unboundLocal
      else
        if pf = false then
          .ok (mutated, mutated.filter
            (fun r => r.attackType == "ground" || r.attackType == "both"))
        else
          .ok (mutated, mutated.filter
            (fun r => r.attackType == "air" || r.attackType == "both"))

/-- Single quote character, built numerically. -/
def pyQuote : String := String.mk [Char.ofNat 39]

/-- Python str of a list of strings, as produced by astype(str) on a list
column or str() on a list attribute: brackets, single quotes, comma-space. -/
def pyStrList (l : List String) : String :=
  "[" ++ String.intercalate ", " (l.map (fun s => pyQuote ++ s ++ pyQuote)) ++ "]"

/-- Path concatenation modelling os.path.join for the relative filenames
used here. -/
def joinPath (p f : String) : String := p ++ "/" ++ f

/-- Embedding of get_unit_image: dictionary access raises KeyError on a
missing id, otherwise the image filename is joined to the image path. -/
def get_unit_image (unit_id : String) (unit_to_image_mapping : AbilityDict)
    (image_path : String) : Except PyErr String :=
  match unit_to_image_mapping.lookup unit_id with
  | none => .error .keyError
  | some v => .ok (joinPath image_path v.1)

/-- The img tag built for one base64-encoded image. -/
def html_img_string (b64 : String) : String :=
  "<img src=\"data:image/jpg;base64," ++ b64 ++ "\" width=\"40\" height=\"40\">"

/-- Python dict.fromkeys on a list of keys, as a list of the keys with later
duplicates dropped (insertion order is preserved, first occurrence wins). -/
def pyFromKeys (l : List String) : List String :=
  l.foldl (fun acc x => if x ∈ acc then acc else acc ++ [x]) []

/-- The html generation loop shared verbatim by get_strong_against and
get_weak_against: for each id look up its image (KeyError on a missing id),
encode it and wrap it in an img tag. The encoding of a file on disk is out
of scope and is passed in as the function imgB64 from path to base64 text. -/
def images_html_list (ids : List String) (abilities_dict : AbilityDict)
    (imgB64 : String → String) (image_path : String) : Except PyErr (List String) :=
  match ids with
  | [] => .ok []
  | i :: tl =>
    match get_unit_image i abilities_dict image_path with
    | .error e => .error e
    | .ok p =>
      match images_html_list tl abilities_dict imgB64 image_path with
      | .error e => .error e
      | .ok rest => .ok (html_img_string (imgB64 p) :: rest)

/-- Joining of the html images after deduplication with dict.fromkeys, the
final step of both resolver functions. -/
def unit_images_html (ids : List String) (abilities_dict : AbilityDict)
    (imgB64 : String → String) (image_path : String) : Except PyErr String :=
  match images_html_list ids abilities_dict imgB64 image_path with
  | .error e => .error e
  | .ok htmls => .ok (String.join (pyFromKeys htmls))

/-- The id-selection part of get_strong_against: the strength_type check,
the strengths attack-type gate, and the selection of enemy ids, exactly as
in units.py (the enemy_vulnerability branch matches the player damage type
as a substring of astype(str) of the vulnerability column; the resistance
branch tests the enemy damage type as a substring of str of the player
resilience attribute). -/
def strong_against_ids (player_unit : UnitRecord) (enemy_df : List UnitRecord)
    (abilities_dict : AbilityDict) (strength_type : String) :
    Except PyErr (List String) :=
  if ¬(strength_type = "resistance" ∨ strength_type = "enemy_vulnerability") then
    .error (.valueError
      "Unknown strength_type, only resistance and enemy_vulnerability are allowed")
  else
    match check_attack_types player_unit enemy_df abilities_dict "strengths" with
    | .error e => .error e
    | .ok (_, filtered) =>
      if strength_type = "enemy_vulnerability" then
        .ok ((filtered.filter
          (fun r => strContainsSub (pyStrList r.vulnerability) player_unit.damageType)).map
            UnitRecord.id)
      else
        .ok ((filtered.filter
          (fun r => strContainsSub (pyStrList player_unit.resilience) r.damageType)).map
            UnitRecord.id)

/-- Embedding of get_strong_against from units.py. -/
def get_strong_against (player_unit : UnitRecord) (enemy_df : List UnitRecord)
    (strength_type : String) (abilities_dict : AbilityDict)
    (imgB64 : String → String) (image_path : String) : Except PyErr String :=
  match strong_against_ids player_unit enemy_df abilities_dict strength_type with
  | .error e => .error e
  | .ok strong_against =>
    if strong_against.length = 0 then .ok "&nbsp"
    else unit_images_html strong_against abilities_dict imgB64 image_path

/-- The id-selection part of get_weak_against: the weaknesses attack-type
gate then selection of enemy ids whose damage type occurs as a substring of
str of the player vulnerability attribute. -/
def weak_against_ids (player_unit : UnitRecord) (enemy_df : List UnitRecord)
    (abilities_dict : AbilityDict) : Except PyErr (List String) :=
  match check_attack_types player_unit enemy_df abilities_dict "weaknesses" with
  | .error e => .error e
  | .ok (_, filtered) =>
    .ok ((filtered.filter
      (fun r => strContainsSub (pyStrList player_unit.vulnerability) r.damageType)).map
        UnitRecord.id)

/-- Embedding of get_weak_against from units.py. -/
def get_weak_against (player_unit : UnitRecord) (enemy_df : List UnitRecord)
    (abilities_dict : AbilityDict) (imgB64 : String → String)
    (image_path : String) : Except PyErr String :=
  match weak_against_ids player_unit enemy_df abilities_dict with
  | .error e => .error e
  | .ok weak_against =>
    if weak_against.length = 0 then .ok "&nbsp"
    else unit_images_html weak_against abilities_dict imgB64 image_path

/-- The hard-coded builder ids of filter_units. -/
def builders_list : List String :=
  ["AHBX", "ABBX", "AEBX", "AEAX", "AUBX", "ADBX",
   "AFBX", "ALBX", "AVBX", "AABX", "AOBX", "ARBX"]

/-- The hard-coded tier-one flier ids of filter_units. -/
def t1_fliers_list : List String :=
  ["AAEG", "AAPH", "AALH", "AABA", "AADF", "AAFB", "AAWA"]

/-- The hard-coded dragon ids of filter_units. -/
def dragons_list : List String :=
  ["AADB", "AADR", "AADG", "AADW", "AADC", "AADU"]

/-- The hard-coded titan ids of filter_units. -/
def titans_list : List String :=
  ["ATDX", "ATPX", "ATEX", "ATHX", "ATBX", "ATFX", "ATMX",
   "ATLX", "ATWX", "ATVX", "ATKX", "ATAX", "ATOX", "ATGX",
   "ATRX", "ATUX"]

/-- Embedding of filter_units from units.py: each flag that is not true
removes the rows whose id belongs to the corresponding hard-coded list, in
sequence. Pandas loc indexing builds a new frame at each step, so the input
list is never modified, matching the pure reading here. -/
def filter_units (units_df : List UnitRecord)
    (builders t1_fliers dragons titans : Bool) : List UnitRecord :=
  let df1 := if builders then units_df
    else units_df.filter (fun r => !(builders_list.contains r.id))
  let df2 := if t1_fliers then df1
    else df1.filter (fun r => !(t1_fliers_list.contains r.id))
  let df3 := if dragons then df2
    else df2.filter (fun r => !(dragons_list.contains r.id))
  let df4 := if titans then df3
    else df3.filter (fun r => !(titans_list.contains r.id))
  df4

/-- Test that an embedded call ended in a ValueError, the failure the spec
names InvalidArgument. -/
def raises_invalid_argument : Except PyErr α → Bool
  | .error (.valueError _) => true
  | _ => false

/-- Test whether one exception value is a ValueError. -/
def is_value_error : PyErr → Bool
  | .valueError _ => true
  | _ => false

/-- Modelled from the claim wording of C1: an enemy is a flier exactly when
its ability text contains the word flying case-insensitively, so a missing
entry or a None text is not a flier. -/
def spec_is_flier (abilities : List (String × Option String)) (id : String) : Bool :=
  match abilities.lookup id with
  | some (some s) => hasFlying s
  | _ => false

/-- Modelled from the amended wording of C1: an enemy is treated as a flier
when its ability text contains the word flying case-insensitively or when
the text is missing or None. -/
def amended_is_flier (abilities : List (String × Option String)) (id : String) : Bool :=
  match abilities.lookup id with
  | some (some s) => hasFlying s
  | _ => true

/-- Row predicate of the strengths direction as the spec words it, with the
flier notion passed in: a ground attacker keeps non-fliers, an air attacker
keeps fliers, a both attacker keeps everything. -/
def strengths_keep (flier : String → Bool) (player_unit : UnitRecord)
    (r : UnitRecord) : Bool :=
  if player_unit.attackType = "ground" then !(flier r.id)
  else if player_unit.attackType = "air" then flier r.id
  else true

/-- Row predicate of the weaknesses direction as the spec words it, given
the flier status of the player unit: a grounded player keeps enemies whose
attack type is ground or both, a flying player those with air or both. -/
def weaknesses_keep (pf : Bool) (r : UnitRecord) : Bool :=
  if pf then r.attackType == "air" || r.attackType == "both"
  else r.attackType == "ground" || r.attackType == "both"

/-- Modelled from the claim wording of C9: a row is removed exactly when its
id lies in a category list whose flag is false. -/
def category_excluded (builders t1_fliers dragons titans : Bool)
    (id : String) : Bool :=
  (!builders && builders_list.contains id)
    || (!t1_fliers && t1_fliers_list.contains id)
    || (!dragons && dragons_list.contains id)
    || (!titans && titans_list.contains id)

/-- Modelled from the claim wording of C10: keep the first occurrence of
every element and drop the later duplicates. -/
def keep_first_occurrences : List String → List String
  | [] => []
  | x :: xs => x :: keep_first_occurrences (xs.filter (fun y => decide (y ≠ x)))
termination_by l => l.length
decreasing_by
  simp_wf
  exact Nat.lt_succ_of_le (List.length_filter_le _ _)

/-- Erasure of the flying column of a row, used to state that the gate
touches nothing else. -/
def clear_flying (r : UnitRecord) : UnitRecord := { r with flying := none }

/-- Construction of a fresh row with the given id, damage type, attack type,
resilience and vulnerability, and no flying column yet. -/
def mkUnit (id dt atk : String) (res vul : List String) : UnitRecord :=
  ⟨id, "unit " ++ id, dt, atk, res, vul, none⟩

/-- A small concrete ability dictionary used by the concrete instances:
P001 and E003 have ground-style texts, P002 and E002 have flying texts, and
E001 has a None ability text. -/
def sample_dict : AbilityDict :=
  [("P001", ("p001.png", some "Walks the earth")),
   ("P002", ("p002.png", some "Flying scout")),
   ("E001", ("e001.png", none)),
   ("E002", ("e002.png", some "Flying monster")),
   ("E003", ("e003.png", some "Sturdy walker"))]

/-- Application of the in-place flying-column write to one row. -/
def set_flying (ab : List (String × Option String)) (r : UnitRecord) : UnitRecord :=
  { r with flying := some (enemy_flying ab r.id) }

theorem filter_of_map (f : α → β) (p : β → Bool) (l : List α) :
    (l.map f).filter p = (l.filter (fun a => p (f a))).map f := by
  induction l with
  | nil => rfl
  | cons a tl ih => by_cases h : p (f a) <;> simp [h, ih]

theorem map_set_flying_filter_ids (df : List UnitRecord)
    (ab : List (String × Option String)) (p : UnitRecord → Bool) :
    (((df.map (set_flying ab)).filter p).map UnitRecord.id)
    = ((df.filter (fun r => p (set_flying ab r))).map UnitRecord.id) := by
  rw [filter_of_map, List.map_map]
  rfl

theorem beq_some_false (x : Bool) : (some x == some false) = !x := by
  cases x <;> rfl

theorem beq_some_true (x : Bool) : (some x == some true) = x := by
  cases x <;> rfl

theorem amended_is_flier_eq (ab : List (String × Option String)) (i : String) :
    amended_is_flier ab i = enemy_flying ab i := rfl

/-- Claim C1: the claim states the strengths gate keeps exactly the non-fliers for
a ground attacker, where a flier is an enemy whose ability text contains the
word flying case-insensitively. At this concrete input the enemy has a None
ability text, hence is not a flier in the sense of the claim, yet the gate
run for a ground attacker drops it: the code treats a missing text as flying. -/
theorem C1_strengths_gate_counterexample :
    (check_attack_types (mkUnit "P001" "fire" "ground" [] [])
        [mkUnit "E001" "cold" "ground" [] []] sample_dict "strengths").map
          (fun pr => pr.2.map UnitRecord.id)
      = .ok []
    ∧ spec_is_flier (abilitiesOnly sample_dict) "E001" = false
    ∧ ([mkUnit "E001" "cold" "ground" [] []].filter
        (fun r => !(spec_is_flier (abilitiesOnly sample_dict) r.id))).map UnitRecord.id
      = ["E001"] := ⟨rfl, rfl, rfl⟩

/-- Claim C1 as amended: the strengths gate keeps exactly the enemies allowed by
the attack type of the player unit, where an enemy counts as a flier when
its ability text contains the word flying case-insensitively, or when its
ability text is missing or None. -/
theorem C1_strengths_gate (player : UnitRecord) (df : List UnitRecord)
    (d : AbilityDict) (a : Option String)
    (h1 : (abilitiesOnly d).lookup player.id = some a)
    (h2 : player.attackType = "ground" ∨ player.attackType = "air"
      ∨ player.attackType = "both") :
    (check_attack_types player df d "strengths").map (fun pr => pr.2.map UnitRecord.id)
    = .ok ((df.filter
        (strengths_keep (amended_is_flier (abilitiesOnly d)) player)).map UnitRecord.id) := by
  rcases h2 with h | h | h <;>
    simp only [check_attack_types, h1, h, strengths_keep, if_neg, if_pos,
      String.reduceEq, not_false_eq_true, or_true, true_or, or_false, false_or,
      not_true_eq_false, ite_true, ite_false, if_true, if_false, Except.map,
      reduceIte, Except.ok.injEq] <;>
    rw [show (fun (r : UnitRecord) =>
        { r with flying := some (enemy_flying (abilitiesOnly d) r.id) })
        = set_flying (abilitiesOnly d) from rfl]
  · rw [map_set_flying_filter_ids]
    have hk : strengths_keep (amended_is_flier (abilitiesOnly d)) player
        = fun r => !(enemy_flying (abilitiesOnly d) r.id) := by
      funext r; simp [strengths_keep, h, amended_is_flier_eq]
    rw [hk]
    simp [set_flying, beq_some_false]
  · rw [map_set_flying_filter_ids]
    have hk : strengths_keep (amended_is_flier (abilitiesOnly d)) player
        = fun r => enemy_flying (abilitiesOnly d) r.id := by
      funext r; simp [strengths_keep, h, amended_is_flier_eq]
    rw [hk]
    simp [set_flying, beq_some_true]
  · have hk : strengths_keep (amended_is_flier (abilitiesOnly d)) player
        = fun _ => true := by
      funext r; simp [strengths_keep, h]
    rw [hk]
    simp [List.filter_true]
    intro r _
    rfl

/-- Witness for claim C1: the amended gate theorem applied at a concrete mixed enemy
table for a ground attacker. -/
theorem C1_strengths_gate_witness :
    (check_attack_types (mkUnit "P001" "fire" "ground" [] [])
        [mkUnit "E001" "cold" "ground" [] [], mkUnit "E002" "cold" "air" [] [],
         mkUnit "E003" "cold" "ground" [] []] sample_dict "strengths").map
          (fun pr => pr.2.map UnitRecord.id)
    = .ok (([mkUnit "E001" "cold" "ground" [] [], mkUnit "E002" "cold" "air" [] [],
         mkUnit "E003" "cold" "ground" [] []].filter
        (strengths_keep (amended_is_flier (abilitiesOnly sample_dict))
          (mkUnit "P001" "fire" "ground" [] []))).map UnitRecord.id) :=
  C1_strengths_gate _ _ _ (some "Walks the earth") rfl (Or.inl rfl)

/-- Claim C2: the weaknesses gate determines the flier status of the player unit
from its own ability text, then keeps exactly the enemies whose attack type
is ground or both when the player unit is not a flier, and exactly those
whose attack type is air or both when it is. -/
theorem C2_weaknesses_gate (player : UnitRecord) (df : List UnitRecord)
    (d : AbilityDict) (a : Option String)
    (h1 : (abilitiesOnly d).lookup player.id = some a) :
    (check_attack_types player df d "weaknesses").map (fun pr => pr.2.map UnitRecord.id)
    = .ok ((df.filter (weaknesses_keep (player_unit_flying a))).map UnitRecord.id) := by
  unfold check_attack_types
  rw [if_neg (by simp)]
  simp only [h1]
  rw [show (fun (r : UnitRecord) =>
      { r with flying := some (enemy_flying (abilitiesOnly d) r.id) })
      = set_flying (abilitiesOnly d) from rfl]
  rw [if_neg (by simp : ¬("weaknesses" = "strengths"))]
  cases hpf : player_unit_flying a
  · rw [if_pos rfl]
    simp only [Except.map]
    rw [map_set_flying_filter_ids]
    have hk : weaknesses_keep false
        = fun (r : UnitRecord) => r.attackType == "ground" || r.attackType == "both" := by
      funext r; simp [weaknesses_keep]
    rw [hk]
    rfl
  · rw [if_neg (by simp)]
    simp only [Except.map]
    rw [map_set_flying_filter_ids]
    have hk : weaknesses_keep true
        = fun (r : UnitRecord) => r.attackType == "air" || r.attackType == "both" := by
      funext r; simp [weaknesses_keep]
    rw [hk]
    rfl

/-- Witness for claim C2: the weaknesses gate applied for a grounded player unit over
a mixed enemy table keeps exactly the ground and both attackers. -/
theorem C2_weaknesses_gate_witness :
    (check_attack_types (mkUnit "P001" "fire" "ground" [] [])
        [mkUnit "E001" "cold" "ground" [] [], mkUnit "E002" "cold" "air" [] [],
         mkUnit "E003" "cold" "both" [] []] sample_dict "weaknesses").map
          (fun pr => pr.2.map UnitRecord.id)
    = .ok (([mkUnit "E001" "cold" "ground" [] [], mkUnit "E002" "cold" "air" [] [],
         mkUnit "E003" "cold" "both" [] []].filter
        (weaknesses_keep (player_unit_flying (some "Walks the earth")))).map
          UnitRecord.id) :=
  C2_weaknesses_gate _ _ _ (some "Walks the earth") rfl

theorem filter_map_set_flying (df : List UnitRecord)
    (ab : List (String × Option String)) (p : UnitRecord → Bool) :
    (df.map (set_flying ab)).filter p
    = (df.filter (fun r => p (set_flying ab r))).map (set_flying ab) :=
  filter_of_map _ _ _

theorem gate_strengths_eq (player : UnitRecord) (df : List UnitRecord)
    (d : AbilityDict) (a : Option String)
    (h1 : (abilitiesOnly d).lookup player.id = some a)
    (h2 : player.attackType = "ground" ∨ player.attackType = "air"
      ∨ player.attackType = "both") :
    check_attack_types player df d "strengths"
    = .ok (df.map (set_flying (abilitiesOnly d)),
        (df.filter (strengths_keep (amended_is_flier (abilitiesOnly d)) player)).map
          (set_flying (abilitiesOnly d))) := by
  unfold check_attack_types
  rw [if_neg (by simp)]
  simp only [h1]
  rw [show (fun (r : UnitRecord) =>
      { r with flying := some (enemy_flying (abilitiesOnly d) r.id) })
      = set_flying (abilitiesOnly d) from rfl]
  simp only [if_true]
  rcases h2 with h | h | h
  · rw [if_pos h]
    have hk : strengths_keep (amended_is_flier (abilitiesOnly d)) player
        = fun (r : UnitRecord) => !(enemy_flying (abilitiesOnly d) r.id) := by
      funext r; simp [strengths_keep, h, amended_is_flier_eq]
    rw [hk, filter_map_set_flying]
    have hp : (fun r => (fun (r2 : UnitRecord) => r2.flying == some false)
          (set_flying (abilitiesOnly d) r))
        = fun (r : UnitRecord) => !(enemy_flying (abilitiesOnly d) r.id) := by
      funext r; simp [set_flying, beq_some_false]
    rw [hp]
  · rw [if_neg (by simp [h]), if_pos h]
    have hk : strengths_keep (amended_is_flier (abilitiesOnly d)) player
        = fun (r : UnitRecord) => enemy_flying (abilitiesOnly d) r.id := by
      funext r; simp [strengths_keep, h, amended_is_flier_eq]
    rw [hk, filter_map_set_flying]
    have hp : (fun r => (fun (r2 : UnitRecord) => r2.flying == some true)
          (set_flying (abilitiesOnly d) r))
        = fun (r : UnitRecord) => enemy_flying (abilitiesOnly d) r.id := by
      funext r; simp [set_flying, beq_some_true]
    rw [hp]
  · rw [if_neg (by simp [h]), if_neg (by simp [h]), if_pos h]
    have hk : strengths_keep (amended_is_flier (abilitiesOnly d)) player
        = fun (_ : UnitRecord) => true := by
      funext r; simp [strengths_keep, h]
    rw [hk, List.filter_true]

theorem gate_weaknesses_eq (player : UnitRecord) (df : List UnitRecord)
    (d : AbilityDict) (a : Option String)
    (h1 : (abilitiesOnly d).lookup player.id = some a) :
    check_attack_types player df d "weaknesses"
    = .ok (df.map (set_flying (abilitiesOnly d)),
        (df.filter (weaknesses_keep (player_unit_flying a))).map
          (set_flying (abilitiesOnly d))) := by
  unfold check_attack_types
  rw [if_neg (by simp)]
  simp only [h1]
  rw [show (fun (r : UnitRecord) =>
      { r with flying := some (enemy_flying (abilitiesOnly d) r.id) })
      = set_flying (abilitiesOnly d) from rfl]
  rw [if_neg (by simp : ¬("weaknesses" = "strengths"))]
  cases hpf : player_unit_flying a
  · rw [if_pos rfl, filter_map_set_flying]
    have hk : weaknesses_keep false
        = fun (r : UnitRecord) => r.attackType == "ground" || r.attackType == "both" := by
      funext r; simp [weaknesses_keep]
    rw [hk]
    rfl
  · rw [if_neg (by simp), filter_map_set_flying]
    have hk : weaknesses_keep true
        = fun (r : UnitRecord) => r.attackType == "air" || r.attackType == "both" := by
      funext r; simp [weaknesses_keep]
    rw [hk]
    rfl

/-- Claim C3: the claim states that mode enemy_vulnerability selects exactly the
gate survivors whose vulnerability set contains the player damage type as a
member. At this concrete input the selected enemy has vulnerability list
fireball only, which does not contain the member fire, yet the code selects
it: the selection is a substring match on the str of the list, not a set
membership test. -/
theorem C3_enemy_vulnerability_counterexample :
    strong_against_ids (mkUnit "P001" "fire" "ground" [] [])
      [mkUnit "E003" "cold" "ground" [] ["fireball"]] sample_dict "enemy_vulnerability"
    = .ok ["E003"]
    ∧ ¬((mkUnit "P001" "fire" "ground" [] []).damageType
        ∈ (mkUnit "E003" "cold" "ground" [] ["fireball"]).vulnerability) :=
  ⟨rfl, by decide⟩

/-- Claim C3 as amended: mode enemy_vulnerability first applies the strengths gate
and then selects exactly the enemy ids for which the player damage type
occurs as a substring of the Python str rendering of the vulnerability list,
so set membership implies selection but a damage type occurring inside
another tag also selects. -/
theorem C3_enemy_vulnerability (player : UnitRecord) (df : List UnitRecord)
    (d : AbilityDict) (a : Option String)
    (h1 : (abilitiesOnly d).lookup player.id = some a)
    (h2 : player.attackType = "ground" ∨ player.attackType = "air"
      ∨ player.attackType = "both") :
    strong_against_ids player df d "enemy_vulnerability"
    = .ok (((df.filter
          (strengths_keep (amended_is_flier (abilitiesOnly d)) player)).filter
        (fun r => strContainsSub (pyStrList r.vulnerability) player.damageType)).map
          UnitRecord.id) := by
  unfold strong_against_ids
  rw [if_neg (by simp)]
  rw [gate_strengths_eq player df d a h1 h2]
  dsimp only
  rw [filter_map_set_flying, List.map_map]
  rfl

/-- Witness for claim C3: the amended selection applied to a ground attacker with
damage type fire against a flier and a grounded enemy with a fireball
vulnerability. -/
theorem C3_enemy_vulnerability_witness :
    strong_against_ids (mkUnit "P001" "fire" "ground" [] [])
      [mkUnit "E002" "cold" "air" [] ["fire"],
       mkUnit "E003" "cold" "ground" [] ["fireball"]] sample_dict "enemy_vulnerability"
    = .ok ((([mkUnit "E002" "cold" "air" [] ["fire"],
       mkUnit "E003" "cold" "ground" [] ["fireball"]].filter
          (strengths_keep (amended_is_flier (abilitiesOnly sample_dict))
            (mkUnit "P001" "fire" "ground" [] []))).filter
        (fun r => strContainsSub (pyStrList r.vulnerability)
          (mkUnit "P001" "fire" "ground" [] []).damageType)).map UnitRecord.id) :=
  C3_enemy_vulnerability _ _ _ (some "Walks the earth") rfl (Or.inl rfl)

/-- Claim C4: the claim states that weakness resolution selects exactly the gate
survivors whose damage type is a member of the player vulnerability set. At
this concrete input the player vulnerability list is fireball only and the
enemy damage type fire is not a member of it, yet the code selects the
enemy: the test is a substring match inside str of the list. -/
theorem C4_weak_counterexample :
    weak_against_ids (mkUnit "P001" "fire" "ground" [] ["fireball"])
      [mkUnit "E003" "fire" "ground" [] []] sample_dict
    = .ok ["E003"]
    ∧ ¬((mkUnit "E003" "fire" "ground" [] []).damageType
        ∈ (mkUnit "P001" "fire" "ground" [] ["fireball"]).vulnerability) :=
  ⟨rfl, by decide⟩

/-- Claim C4 as amended: weakness resolution first applies the weaknesses gate and
then selects exactly the enemy ids whose damage type occurs as a substring
of the Python str rendering of the player vulnerability list, so membership
implies selection but a tag occurring inside another tag also selects. -/
theorem C4_weak_selection (player : UnitRecord) (df : List UnitRecord)
    (d : AbilityDict) (a : Option String)
    (h1 : (abilitiesOnly d).lookup player.id = some a) :
    weak_against_ids player df d
    = .ok (((df.filter (weaknesses_keep (player_unit_flying a))).filter
        (fun r => strContainsSub (pyStrList player.vulnerability) r.damageType)).map
          UnitRecord.id) := by
  unfold weak_against_ids
  rw [gate_weaknesses_eq player df d a h1]
  dsimp only
  rw [filter_map_set_flying, List.map_map]
  rfl

/-- Witness for claim C4: the amended weakness selection applied for a grounded
player unit against a mixed enemy table. -/
theorem C4_weak_selection_witness :
    weak_against_ids (mkUnit "P001" "fire" "ground" [] ["cold"])
      [mkUnit "E001" "cold" "air" [] [], mkUnit "E002" "cold" "both" [] [],
       mkUnit "E003" "fire" "ground" [] []] sample_dict
    = .ok ((([mkUnit "E001" "cold" "air" [] [], mkUnit "E002" "cold" "both" [] [],
       mkUnit "E003" "fire" "ground" [] []].filter
          (weaknesses_keep (player_unit_flying (some "Walks the earth")))).filter
        (fun r => strContainsSub
          (pyStrList (mkUnit "P001" "fire" "ground" [] ["cold"]).vulnerability)
          r.damageType)).map UnitRecord.id) :=
  C4_weak_selection _ _ _ (some "Walks the earth") rfl

/-- Claim C5: the claim states that mode resistance selects exactly the gate
survivors whose damage type is a member of the player resilience set. At
this concrete input the player resilience list is fireball only and the
enemy damage type fire is not a member, yet the code selects the enemy:
the test is a substring match inside str of the list. -/
theorem C5_resistance_counterexample :
    strong_against_ids (mkUnit "P001" "fire" "ground" ["fireball"] [])
      [mkUnit "E003" "fire" "ground" [] []] sample_dict "resistance"
    = .ok ["E003"]
    ∧ ¬((mkUnit "E003" "fire" "ground" [] []).damageType
        ∈ (mkUnit "P001" "fire" "ground" ["fireball"] []).resilience) :=
  ⟨rfl, by decide⟩

/-- Claim C5 as amended: mode resistance first applies the strengths gate and then
selects exactly the enemy ids whose damage type occurs as a substring of the
Python str rendering of the player resilience list, so membership implies
selection but a tag occurring inside another tag also selects. -/
theorem C5_resistance (player : UnitRecord) (df : List UnitRecord)
    (d : AbilityDict) (a : Option String)
    (h1 : (abilitiesOnly d).lookup player.id = some a)
    (h2 : player.attackType = "ground" ∨ player.attackType = "air"
      ∨ player.attackType = "both") :
    strong_against_ids player df d "resistance"
    = .ok (((df.filter
          (strengths_keep (amended_is_flier (abilitiesOnly d)) player)).filter
        (fun r => strContainsSub (pyStrList player.resilience) r.damageType)).map
          UnitRecord.id) := by
  unfold strong_against_ids
  rw [if_neg (by simp)]
  rw [gate_strengths_eq player df d a h1 h2]
  dsimp only
  rw [if_neg (by simp)]
  rw [filter_map_set_flying, List.map_map]
  rfl

/-- Witness for claim C5: the amended resistance selection applied to a ground
attacker that resists cold against a mixed table. -/
theorem C5_resistance_witness :
    strong_against_ids (mkUnit "P001" "fire" "ground" ["cold"] [])
      [mkUnit "E001" "cold" "ground" [] [], mkUnit "E003" "fire" "ground" [] []]
      sample_dict "resistance"
    = .ok ((([mkUnit "E001" "cold" "ground" [] [], mkUnit "E003" "fire" "ground" [] []].filter
          (strengths_keep (amended_is_flier (abilitiesOnly sample_dict))
            (mkUnit "P001" "fire" "ground" ["cold"] []))).filter
        (fun r => strContainsSub
          (pyStrList (mkUnit "P001" "fire" "ground" ["cold"] []).resilience)
          r.damageType)).map UnitRecord.id) :=
  C5_resistance _ _ _ (some "Walks the earth") rfl (Or.inl rfl)

/-- Claim C6: the claim states that the gate leaves the enemy table passed by the
caller unchanged. At this concrete input the table seen by the caller after
the call has a flying column written on its row, so it differs from the
table that was passed in. -/
theorem C6_mutation_counterexample :
    (check_attack_types (mkUnit "P001" "fire" "ground" [] [])
        [mkUnit "E003" "cold" "ground" [] []] sample_dict "strengths").map Prod.fst
      = .ok [{ mkUnit "E003" "cold" "ground" [] [] with flying := some false }]
    ∧ ({ mkUnit "E003" "cold" "ground" [] [] with flying := some false } : UnitRecord)
        ≠ mkUnit "E003" "cold" "ground" [] [] :=
  ⟨rfl, by decide⟩

/-- Claim C6 as amended: every successful gate call overwrites exactly the flying
column of the caller table with the computed flier flags; the rows, their
order and every other column are unchanged. -/
theorem C6_mutation_frame (player : UnitRecord) (df : List UnitRecord)
    (d : AbilityDict) (ctx : String) (mtd filt : List UnitRecord)
    (h : check_attack_types player df d ctx = .ok (mtd, filt)) :
    mtd.map clear_flying = df.map clear_flying
    ∧ mtd.map UnitRecord.flying
        = df.map (fun r => some (enemy_flying (abilitiesOnly d) r.id)) := by
  have hmut : mtd = df.map (set_flying (abilitiesOnly d)) := by
    unfold check_attack_types at h
    dsimp only at h
    split at h
    · exact absurd h (by simp)
    · split at h
      · exact absurd h (by simp)
      · split at h
        · split at h
          · simp only [Except.ok.injEq, Prod.mk.injEq] at h
            exact h.1.symm
          · split at h
            · simp only [Except.ok.injEq, Prod.mk.injEq] at h
              exact h.1.symm
            · split at h
              · simp only [Except.ok.injEq, Prod.mk.injEq] at h
                exact h.1.symm
              · exact absurd h (by simp)
        · split at h
          · simp only [Except.ok.injEq, Prod.mk.injEq] at h
            exact h.1.symm
          · simp only [Except.ok.injEq, Prod.mk.injEq] at h
            exact h.1.symm
  refine ⟨?_, ?_⟩ <;> rw [hmut, List.map_map] <;> rfl

/-- Witness for claim C6: the frame property instantiated at a successful concrete
gate call. -/
theorem C6_mutation_frame_witness :
    ([{ mkUnit "E003" "cold" "ground" [] [] with flying := some false }].map clear_flying
      = [mkUnit "E003" "cold" "ground" [] []].map clear_flying)
    ∧ ([{ mkUnit "E003" "cold" "ground" [] [] with flying := some false }].map
        UnitRecord.flying
      = [mkUnit "E003" "cold" "ground" [] []].map
          (fun r => some (enemy_flying (abilitiesOnly sample_dict) r.id))) :=
  C6_mutation_frame (mkUnit "P001" "fire" "ground" [] [])
    [mkUnit "E003" "cold" "ground" [] []] sample_dict "strengths" _ _ rfl

theorem raises_error_eq {α : Type} (e : PyErr) :
    raises_invalid_argument (Except.error e : Except PyErr α) = is_value_error e := by
  cases e <;> rfl

theorem gate_no_invalid (player : UnitRecord) (df : List UnitRecord)
    (d : AbilityDict) (ctx : String)
    (h : ctx = "strengths" ∨ ctx = "weaknesses") :
    raises_invalid_argument (check_attack_types player df d ctx) = false := by
  unfold check_attack_types
  rw [if_neg (not_not_intro h)]
  cases hl : List.lookup player.id (abilitiesOnly d) with
  | none => simp only [hl]; rfl
  | some ability =>
    simp only [hl]
    split_ifs <;> rfl

theorem get_unit_image_err (i : String) (d : AbilityDict) (ip : String)
    (e : PyErr) (h : get_unit_image i d ip = .error e) : e = .keyError := by
  unfold get_unit_image at h
  cases hl : List.lookup i d <;> rw [hl] at h
  · exact (Except.error.inj h).symm
  · exact absurd h (by simp)

theorem images_html_list_no_invalid (ids : List String) (d : AbilityDict)
    (img : String → String) (ip : String) :
    raises_invalid_argument (images_html_list ids d img ip) = false := by
  induction ids with
  | nil => rfl
  | cons i tl ih =>
    rw [images_html_list]
    cases hgi : get_unit_image i d ip with
    | error e =>
      have := get_unit_image_err i d ip e hgi
      subst this
      rfl
    | ok p =>
      cases hrest : images_html_list tl d img ip with
      | error e =>
        rw [hrest] at ih
        exact ih
      | ok rest => rfl

theorem unit_images_html_no_invalid (ids : List String) (d : AbilityDict)
    (img : String → String) (ip : String) :
    raises_invalid_argument (unit_images_html ids d img ip) = false := by
  unfold unit_images_html
  cases hr : images_html_list ids d img ip with
  | error e =>
    have := images_html_list_no_invalid ids d img ip
    rw [hr] at this
    dsimp only
    rw [raises_error_eq] at this ⊢
    exact this
  | ok htmls => rfl

theorem strong_ids_no_invalid (player : UnitRecord) (df : List UnitRecord)
    (d : AbilityDict) (mode : String)
    (h : mode = "resistance" ∨ mode = "enemy_vulnerability") :
    raises_invalid_argument (strong_against_ids player df d mode) = false := by
  unfold strong_against_ids
  rw [if_neg (not_not_intro h)]
  cases hg : check_attack_types player df d "strengths" with
  | error e =>
    have hv := gate_no_invalid player df d "strengths" (Or.inl rfl)
    rw [hg] at hv
    dsimp only
    rw [raises_error_eq] at hv ⊢
    exact hv
  | ok pr =>
    obtain ⟨m, f⟩ := pr
    dsimp only
    split_ifs <;> rfl

theorem weak_ids_no_invalid (player : UnitRecord) (df : List UnitRecord)
    (d : AbilityDict) :
    raises_invalid_argument (weak_against_ids player df d) = false := by
  unfold weak_against_ids
  cases hg : check_attack_types player df d "weaknesses" with
  | error e =>
    have hv := gate_no_invalid player df d "weaknesses" (Or.inr rfl)
    rw [hg] at hv
    dsimp only
    rw [raises_error_eq] at hv ⊢
    exact hv
  | ok pr =>
    obtain ⟨m, f⟩ := pr
    rfl

/-- Claim C7: an embedded call raises the InvalidArgument failure (a ValueError)
exactly when it is handed an unrecognized direction or mode: the gate
rejects any direction outside strengths and weaknesses, strength
resolution rejects any mode outside resistance and enemy_vulnerability,
and recognized arguments never produce this failure (any failure they can
produce is a KeyError or UnboundLocalError, not a ValueError); weakness
resolution, whose direction is fixed, never produces it. -/
theorem C7_invalid_argument (player : UnitRecord) (df : List UnitRecord)
    (d : AbilityDict) (ctx mode : String) (img : String → String) (ip : String) :
    (raises_invalid_argument (check_attack_types player df d ctx) = true
      ↔ ¬(ctx = "strengths" ∨ ctx = "weaknesses"))
    ∧ (raises_invalid_argument (get_strong_against player df mode d img ip) = true
      ↔ ¬(mode = "resistance" ∨ mode = "enemy_vulnerability"))
    ∧ raises_invalid_argument (get_weak_against player df d img ip) = false := by
  refine ⟨⟨?_, ?_⟩, ⟨?_, ?_⟩, ?_⟩
  · intro ht hdisj
    have hv := gate_no_invalid player df d ctx hdisj
    rw [ht] at hv
    exact absurd hv (by simp)
  · intro hbad
    unfold check_attack_types
    rw [if_pos hbad]
    rfl
  · intro ht hdisj
    have hv : raises_invalid_argument (get_strong_against player df mode d img ip)
        = false := by
      unfold get_strong_against
      cases hs : strong_against_ids player df d mode with
      | error e =>
        have := strong_ids_no_invalid player df d mode hdisj
        rw [hs] at this
        dsimp only
        rw [raises_error_eq] at this ⊢
        exact this
      | ok l =>
        dsimp only
        split_ifs
        · rfl
        · exact unit_images_html_no_invalid l d img ip
    rw [ht] at hv
    exact absurd hv (by simp)
  · intro hbad
    unfold get_strong_against strong_against_ids
    rw [if_pos hbad]
    rfl
  · unfold get_weak_against
    cases hw : weak_against_ids player df d with
    | error e =>
      have := weak_ids_no_invalid player df d
      rw [hw] at this
      dsimp only
      rw [raises_error_eq] at this ⊢
      exact this
    | ok l =>
      dsimp only
      split_ifs
      · rfl
      · exact unit_images_html_no_invalid l d img ip

/-- Claim C8: selection and resolution are total over well-formed input: whenever
the selection yields no ids, each resolver returns the placeholder string
and no error; in particular on an empty enemy table the selections are
empty and both resolvers return the placeholder. Well-formed means the
player id is present in the ability dictionary, its attack type is one of
the three recognized values, and the mode is recognized. -/
theorem C8_empty_total (player : UnitRecord) (df : List UnitRecord)
    (d : AbilityDict) (mode : String) (img : String → String) (ip : String)
    (a : Option String)
    (h1 : mode = "resistance" ∨ mode = "enemy_vulnerability")
    (h2 : (abilitiesOnly d).lookup player.id = some a)
    (h3 : player.attackType = "ground" ∨ player.attackType = "air"
      ∨ player.attackType = "both") :
    (strong_against_ids player df d mode = .ok [] →
      get_strong_against player df mode d img ip = .ok "&nbsp")
    ∧ (weak_against_ids player df d = .ok [] →
      get_weak_against player df d img ip = .ok "&nbsp")
    ∧ strong_against_ids player [] d mode = .ok []
    ∧ weak_against_ids player [] d = .ok []
    ∧ get_strong_against player [] mode d img ip = .ok "&nbsp"
    ∧ get_weak_against player [] d img ip = .ok "&nbsp" := by
  have hse : strong_against_ids player [] d mode = .ok [] := by
    unfold strong_against_ids
    rw [if_neg (not_not_intro h1)]
    rw [gate_strengths_eq player [] d a h2 h3]
    dsimp only
    split_ifs <;> rfl
  have hwe : weak_against_ids player [] d = .ok [] := by
    unfold weak_against_ids
    rw [gate_weaknesses_eq player [] d a h2]
    rfl
  refine ⟨?_, ?_, hse, hwe, ?_, ?_⟩
  · intro hs
    unfold get_strong_against
    rw [hs]
    rfl
  · intro hw
    unfold get_weak_against
    rw [hw]
    rfl
  · unfold get_strong_against
    rw [hse]
    rfl
  · unfold get_weak_against
    rw [hwe]
    rfl

/-- Witness for claim C8: both resolvers applied to the empty enemy table for a
concrete well-formed player unit return the placeholder. -/
theorem C8_empty_total_witness :
    get_strong_against (mkUnit "P001" "fire" "ground" [] []) [] "resistance"
      sample_dict (fun _ => "B64") "images" = .ok "&nbsp"
    ∧ get_weak_against (mkUnit "P001" "fire" "ground" [] []) [] sample_dict
      (fun _ => "B64") "images" = .ok "&nbsp" := by
  have h := C8_empty_total (mkUnit "P001" "fire" "ground" [] []) [] sample_dict
    "resistance" (fun _ => "B64") "images" (some "Walks the earth")
    (Or.inl rfl) rfl (Or.inl rfl)
  exact ⟨h.2.2.2.2.1, h.2.2.2.2.2⟩

theorem stage_eq (flag : Bool) (p : UnitRecord → Bool) (l : List UnitRecord) :
    (if flag then l else l.filter p) = l.filter (fun r => flag || p r) := by
  cases flag
  · simp
  · simp

/-- Claim C9: filter_units returns exactly the input rows whose id does not lie in
any category list whose flag is false, preserving the original order; the
input list itself is left untouched by construction of the embedding, as in
the source, where loc indexing builds a new frame. -/
theorem C9_filter_units (df : List UnitRecord)
    (builders t1_fliers dragons titans : Bool) :
    filter_units df builders t1_fliers dragons titans
    = df.filter (fun r => !(category_excluded builders t1_fliers dragons titans r.id)) := by
  unfold filter_units
  dsimp only
  rw [stage_eq, stage_eq, stage_eq, stage_eq]
  rw [List.filter_filter, List.filter_filter, List.filter_filter]
  refine List.filter_congr ?_
  intro x _
  unfold category_excluded
  generalize builders_list.contains x.id = c1
  generalize t1_fliers_list.contains x.id = c2
  generalize dragons_list.contains x.id = c3
  generalize titans_list.contains x.id = c4
  revert c1 c2 c3 c4
  revert builders t1_fliers dragons titans
  decide

theorem pyFromKeys_go (l acc : List String) :
    l.foldl (fun acc x => if x ∈ acc then acc else acc ++ [x]) acc
    = acc ++ keep_first_occurrences (l.filter (fun y => decide (y ∉ acc))) := by
  induction l generalizing acc with
  | nil => simp [keep_first_occurrences]
  | cons x xs ih =>
    rw [List.foldl_cons]
    by_cases hx : x ∈ acc
    · rw [if_pos hx, ih, List.filter_cons]
      simp [hx]
    · rw [if_neg hx, ih, List.filter_cons]
      rw [if_pos (show (fun y => decide (y ∉ acc)) x = true by simp [hx])]
      conv_rhs => rw [keep_first_occurrences.eq_def]
      dsimp only
      rw [show (acc ++ [x]) ++ keep_first_occurrences
          (xs.filter (fun y => decide (y ∉ acc ++ [x])))
          = acc ++ (x :: keep_first_occurrences
            (xs.filter (fun y => decide (y ∉ acc ++ [x])))) by simp]
      congr 3
      rw [List.filter_filter]
      refine List.filter_congr ?_
      intro y _
      by_cases h1 : y ∈ acc <;> by_cases h2 : y = x <;> simp [h1, h2]

theorem pyFromKeys_eq (l : List String) :
    pyFromKeys l = keep_first_occurrences l := by
  unfold pyFromKeys
  rw [pyFromKeys_go l []]
  simp

theorem keep_first_mem {y : String} : ∀ (l : List String),
    y ∈ keep_first_occurrences l → y ∈ l := by
  intro l
  induction l using keep_first_occurrences.induct with
  | case1 =>
    intro h
    simp [keep_first_occurrences] at h
  | case2 x xs ih =>
    intro h
    rw [keep_first_occurrences.eq_def] at h
    dsimp only at h
    rcases List.mem_cons.mp h with h | h
    · simp [h]
    · have hf := ih h
      have := List.mem_of_mem_filter hf
      simp [this]

theorem keep_first_nodup : ∀ (l : List String),
    (keep_first_occurrences l).Nodup := by
  intro l
  induction l using keep_first_occurrences.induct with
  | case1 => simp [keep_first_occurrences]
  | case2 x xs ih =>
    rw [keep_first_occurrences.eq_def]
    dsimp only
    refine List.nodup_cons.mpr ⟨?_, ih⟩
    intro hmem
    have hx := keep_first_mem _ hmem
    have := List.of_mem_filter hx
    simp at this

theorem images_html_list_ok (ids : List String) (d : AbilityDict)
    (img : String → String) (ip : String)
    (h : ∀ i ∈ ids, (List.lookup i d).isSome = true) :
    ∃ htmls, images_html_list ids d img ip = .ok htmls := by
  induction ids with
  | nil => exact ⟨[], rfl⟩
  | cons i tl ih =>
    obtain ⟨v, hv⟩ := Option.isSome_iff_exists.mp (h i (by simp))
    obtain ⟨rest, hrest⟩ := ih (fun j hj => h j (by simp [hj]))
    refine ⟨html_img_string (img (joinPath ip v.1)) :: rest, ?_⟩
    rw [images_html_list]
    have hgi : get_unit_image i d ip = .ok (joinPath ip v.1) := by
      unfold get_unit_image
      rw [hv]
    rw [hgi]
    dsimp only
    rw [hrest]

/-- Claim C10: when strength resolution computes a nonempty id selection and all
selected ids have dictionary entries, the rendered result is the join of
the per-id image tags deduplicated to their first occurrences: the entry
list is duplicate-free, so an id selected several times (for instance by
duplicate rows of the enemy table) contributes exactly one entry, at the
position of its first occurrence in selection order, which follows the
enemy table order. -/
theorem C10_dedup_first (player : UnitRecord) (df : List UnitRecord)
    (d : AbilityDict) (mode : String) (img : String → String) (ip : String)
    (ids : List String)
    (hids : strong_against_ids player df d mode = .ok ids)
    (hne : ids ≠ [])
    (hdict : ∀ i ∈ ids, (List.lookup i d).isSome = true) :
    ∃ htmls, images_html_list ids d img ip = .ok htmls
      ∧ get_strong_against player df mode d img ip
          = .ok (String.join (keep_first_occurrences htmls))
      ∧ (keep_first_occurrences htmls).Nodup := by
  obtain ⟨htmls, hh⟩ := images_html_list_ok ids d img ip hdict
  refine ⟨htmls, hh, ?_, keep_first_nodup _⟩
  unfold get_strong_against
  rw [hids]
  dsimp only
  rw [if_neg (by simpa [List.length_eq_zero] using hne)]
  unfold unit_images_html
  rw [hh]
  dsimp only
  rw [pyFromKeys_eq]

/-- Witness for claim C10: a both-type attacker against a table holding the same
enemy row twice; the selection repeats the id and the rendered entry list
collapses it to one entry. -/
theorem C10_dedup_first_witness :
    ∃ htmls, images_html_list ["E003", "E003"] sample_dict
        (fun _ => "B64") "images" = .ok htmls
      ∧ get_strong_against (mkUnit "P001" "fire" "both" [] [])
          [mkUnit "E003" "cold" "ground" [] ["fire"],
           mkUnit "E003" "cold" "ground" [] ["fire"]]
          "enemy_vulnerability" sample_dict (fun _ => "B64") "images"
        = .ok (String.join (keep_first_occurrences htmls))
      ∧ (keep_first_occurrences htmls).Nodup :=
  C10_dedup_first (mkUnit "P001" "fire" "both" [] [])
    [mkUnit "E003" "cold" "ground" [] ["fire"],
     mkUnit "E003" "cold" "ground" [] ["fire"]]
    sample_dict "enemy_vulnerability" (fun _ => "B64") "images"
    ["E003", "E003"] rfl (by decide) (by decide)

end WBC
